import Mathlib

/-!
Verification development for the todo-tasks-manager plugin (kanban board).

The definitions below are a shallow embedding of the plugin's lane/order
logic, translated from the TypeScript source:

  * server side: `src/routes.ts` (route handlers over the mongoose `Todo`
    model whose schema is `src/models/todo.ts`);
  * client side: `src/client/TodoPluginComponent.tsx` (the `tasksByStatus`
    projection, `handleDragEnd`, and the local `arrayMove` helper).

The persistent store is modelled as a `List Todo` (document order is
insertion order, as in the underlying collection).  Timestamps
(`createdAt`/`updatedAt`), `description`, `dueDate` and `priority` carry no
lane/order semantics and are omitted from the model; every modelled
operation leaves them untouched exactly when it leaves the modelled fields
untouched.  Mongo's `_id` uniqueness is not built into the list model; the
theorems that need it take it as an explicit `Nodup` hypothesis.
-/

namespace TodoSpec

deriving instance DecidableEq for Except

/-- Whitespace trimming (the mongoose `trim: true` setter on `title`, and the
`String(tag).trim()` calls of `sanitizeTags`): drop leading and trailing
whitespace.  Stated over the character list so that it evaluates by kernel
reduction. -/
def strTrim (s : String) : String :=
  ⟨((s.data.dropWhile Char.isWhitespace).reverse.dropWhile Char.isWhitespace).reverse⟩

/-- The fixed lane enumeration, from `src/models/todo.ts`:
`KANBAN_STATUSES = ["pending", "in-progress", "review", "done"]`. -/
def KANBAN_STATUSES : List String := ["pending", "in-progress", "review", "done"]

/-- The board's first configured lane, `KANBAN_STATUSES[0]`. -/
def defaultStatus : String := KANBAN_STATUSES.headD ""

/-- A stored document of the `todos` collection (and, client side, a task of
the board state).  `parentId = none` means top-level task; `some p` means
sub-item of the task with id `p`.  `order` is a JS number; the code only
ever produces integers, so it is modelled as `Int`.  `isArchived` is the
archived flag that `GET /` filters on (`isArchived: { $ne: true }`). -/
structure Todo where
  id : String
  title : String
  status : String
  order : Int
  parentId : Option String
  tags : List String
  isArchived : Bool
deriving DecidableEq, Repr

/-- Request body of the create routes.  `parentId` models a client-supplied
`parentId` value inside the body of `POST /` (the handler overrides it with
`null`); the other omitted descriptive fields pass through unchanged. -/
structure CreateInput where
  title : String
  status : Option String
  tags : List String
  parentId : Option String
deriving DecidableEq, Repr

/-- Error outcomes of the route handlers: mongoose `ValidationError`
(HTTP 400 "Validation failed"), 404 not-found, and the 400 request-shape
rejections of `PATCH /reorder`. -/
inductive ApiErr where
  | validation
  | notFound
  | badRequest
deriving DecidableEq, Repr

/-- Status defaulting used by both create handlers in `src/routes.ts`:
`status && KANBAN_STATUSES.includes(status) ? status : defaultStatus`.
The JS truthiness test on `status` is subsumed by membership, since the
empty string is not a member of `KANBAN_STATUSES`. -/
def finalStatus (status? : Option String) : String :=
  match status? with
  | some s => if s ∈ KANBAN_STATUSES then s else defaultStatus
  | none => defaultStatus

/-- Tag sanitization from `src/routes.ts`:
`[...new Set(tags.map(trim).filter(tag => tag !== ""))]` — trim, drop
empties, dedupe keeping the first occurrence. -/
def dedupFirst (seen : List String) : List String → List String
  | [] => []
  | x :: xs => if x ∈ seen then dedupFirst seen xs else x :: dedupFirst (x :: seen) xs

/-- See `dedupFirst`; the `sanitizeTags` helper of `createRoutes`. -/
def sanitizeTags (tags : List String) : List String :=
  dedupFirst [] ((tags.map strTrim).filter (fun t => t ≠ ""))

/-- Stable insertion step for ascending sort by `order`: the new element goes
in front of the first element whose `order` is not smaller. -/
def insertByOrder (t : Todo) : List Todo → List Todo
  | [] => [t]
  | u :: us => if u.order < t.order then u :: insertByOrder t us else t :: u :: us

/-- Stable ascending sort by `order`, modelling the JS
`.sort((a, b) => (a.order ?? 0) - (b.order ?? 0))` calls (JS `Array.sort`
is stable, and a stable sort's output is uniquely determined, so stable
insertion sort computes the same list). -/
def sortByOrder : List Todo → List Todo
  | [] => []
  | t :: ts => insertByOrder t (sortByOrder ts)

/-- The `arrayMove` helper at the bottom of `TodoPluginComponent.tsx`:
remove the element at index `i` and re-insert it at index `j`.  The
handler only calls it with in-range indices (it returns early when
`findIndex` gives `-1`), and never with a negative `j`, so only that case
is modelled; an out-of-range `i` leaves the list unchanged. -/
def arrayMove (l : List Todo) (i j : Nat) : List Todo :=
  match l.get? i with
  | none => l
  | some x => (l.eraseIdx i).insertIdx j x

/-- Dense order reassignment
`.map((task, index) => ({ ...task, order: index }))` used by `handleDragEnd`
on every reordered column. -/
def assignDense (seq : List Todo) : List Todo :=
  seq.enum.map (fun p => { p.2 with order := (p.1 : Int) })

/-- Handler of `POST /` (create a top-level todo).  It computes
`finalStatus`, counts the existing documents matching
`{ parentId: null, status: finalStatus }` (note: archived documents are not
excluded from this count) and saves
`{ ...restOfBody, parentId: null, tags: sanitized, status, order: count }`;
a client-supplied `parentId` is overridden by `null`.  Mongoose rejects the
save with a `ValidationError` when the trimmed title is empty (`title` is
`required` with `trim: true`).  Returns the new store plus the created
document or the error; on error the store is unchanged. -/
def createTodo (store : List Todo) (newId : String) (input : CreateInput) :
    List Todo × Except ApiErr Todo :=
  let st := finalStatus input.status
  let currentMaxOrder : Int :=
    ((store.filter (fun t => t.parentId == none && t.status == st)).length : Int)
  let doc : Todo :=
    { id := newId, title := strTrim input.title, status := st,
      order := currentMaxOrder, parentId := none,
      tags := sanitizeTags input.tags, isArchived := false }
  if doc.title = "" then (store, .error .validation)
  else (store ++ [doc], .ok doc)

/-- Handler of `POST /:parentId/subtasks`.  It first checks that the parent
exists (`findById`), answering 404 otherwise; then computes `finalStatus`
exactly as the top-level create does, counts documents matching
`{ parentId }` for the order, and saves
`{ ...restOfBody, parentId, tags, status, order }`.  The mongoose schema
validates `title` (required, trimmed) and `parentId !== _id`.  The
ObjectId-format pre-check (400) concerns only id syntax and is not
modelled.  On error the store is unchanged. -/
def createSubtask (store : List Todo) (newId : String) (parentId : String)
    (input : CreateInput) : List Todo × Except ApiErr Todo :=
  if store.any (fun t => t.id == parentId) then
    let st := finalStatus input.status
    let currentMaxOrder : Int :=
      ((store.filter (fun t => t.parentId == some parentId)).length : Int)
    let doc : Todo :=
      { id := newId, title := strTrim input.title, status := st,
        order := currentMaxOrder, parentId := some parentId,
        tags := sanitizeTags input.tags, isArchived := false }
    if doc.title = "" ∨ newId = parentId then (store, .error .validation)
    else (store ++ [doc], .ok doc)
  else (store, .error .notFound)

/-- Handler of `DELETE /:id`: `findById` (404 when absent, nothing removed),
then `deleteMany({ parentId: id })`, then `deleteOne({ _id: id })`
(`deleteOne` removes the first matching document). -/
def deleteTodo (store : List Todo) (id : String) : List Todo × Except ApiErr Unit :=
  if store.any (fun t => t.id == id) then
    (((store.filter (fun t => !(t.parentId == some id))).eraseP
        (fun t => t.id == id)), .ok ())
  else (store, .error .notFound)

/-- One `updateOne` op of the `bulkWrite` issued by `PATCH /reorder`:
filter `{ _id: uid, status }` (note: no `parentId` condition), update
`$set: { order }`.  Updates the first matching document and reports
(matched, modified); `modifiedCount` counts it only when the stored value
actually changes. -/
def setOrderOne (status uid : String) (ord : Int) :
    List Todo → List Todo × Bool × Bool
  | [] => ([], false, false)
  | t :: ts =>
    if t.id = uid ∧ t.status = status then
      ({ t with order := ord } :: ts, true, decide (t.order ≠ ord))
    else
      let r := setOrderOne status uid ord ts
      (t :: r.1, r.2.1, r.2.2)

/-- The `bulkWrite` of `PATCH /reorder`: the `updateOne` ops run in request
order; the result carries total matched and modified counts. -/
def batchSetOrder (status : String) :
    List (String × Int) → List Todo → List Todo × Nat × Nat
  | [], store => (store, 0, 0)
  | u :: us, store =>
    let r := setOrderOne status u.1 u.2 store
    let rest := batchSetOrder status us r.1
    (rest.1, (if r.2.1 then 1 else 0) + rest.2.1, (if r.2.2 then 1 else 0) + rest.2.2)

/-- Handler of `PATCH /reorder`.  Body `{ status, updates }`: it answers 400
when `status` is missing or not a member of `KANBAN_STATUSES`, 400 when
`updates` is not a non-empty array, and otherwise runs the bulk write and
answers the `(matchedCount, modifiedCount)` pair.  The per-item format
check (`_id` present, `order` a number) is enforced by the type of
`updates` here.  On a 400 the store is untouched. -/
def reorderRoute (store : List Todo) (status : String)
    (updates : List (String × Int)) : List Todo × Except ApiErr (Nat × Nat) :=
  if status ∉ KANBAN_STATUSES then (store, .error .badRequest)
  else if updates = [] then (store, .error .badRequest)
  else
    let r := batchSetOrder status updates store
    (r.1, .ok r.2)

/-- Effective column of a task in the client projection `tasksByStatus`
(`TodoPluginComponent.tsx`): a status outside `KANBAN_STATUSES` — the code
also re-tests the legacy literal `"Todo"`, which is already outside the
list — is remapped to the default (first) lane. -/
def effectiveStatus (t : Todo) : String :=
  if t.status ∈ KANBAN_STATUSES ∧ t.status ≠ "Todo" then t.status else defaultStatus

/-- One column of the `tasksByStatus` projection: the non-archived tasks
whose effective status is `s`, pushed in task-list order and then stably
sorted by `order`. -/
def projectColumn (tasks : List Todo) (s : String) : List Todo :=
  sortByOrder (tasks.filter (fun t => !t.isArchived && effectiveStatus t == s))

/-- The full grouped projection, one column per enumerated lane. -/
def tasksByStatus (tasks : List Todo) : List (String × List Todo) :=
  KANBAN_STATUSES.map (fun s => (s, projectColumn tasks s))

/-- Ids of the tasks for which the projection logs the invalid-status
warning (`console.warn` in `tasksByStatus`): every task whose status is not
enumerated (or is the legacy `"Todo"` literal, which is not enumerated). -/
def projectionWarnings (tasks : List Todo) : List String :=
  (tasks.filter (fun t => !(KANBAN_STATUSES.contains t.status) || t.status == "Todo")).map
    (fun t => t.id)

/-- The pure part of `handleDragEnd` (`TodoPluginComponent.tsx`): from the
current task list and the drag's `active.id` / `over.id`, either an early
return (`none`) or `some (optimistic, crossColumn, sourceNonempty)` where
`optimistic` is the state installed by the optimistic `setTasks` call,
`crossColumn` tells which API branch runs, and `sourceNonempty` tells
whether the cross-column branch issues its third call (source-lane
reorder, skipped when the source column is left empty). -/
def dragPlan (tasks : List Todo) (activeId overId : String) :
    Option (List Todo × Bool × Bool) :=
  if activeId = overId then none
  else
    match tasks.find? (fun t => t.id == activeId) with
    | none => none
    | some draggedTask =>
      let sourceStatus := draggedTask.status
      let overIsColumn := overId ∈ KANBAN_STATUSES
      let targetStatus? : Option String :=
        if overIsColumn then some overId
        else (tasks.find? (fun t => t.id == overId)).map (fun t => t.status)
      match targetStatus? with
      | none => none
      | some targetStatus =>
        if sourceStatus = targetStatus then
          if overIsColumn then none
          else
            let columnTasks := sortByOrder (tasks.filter (fun t => t.status == sourceStatus))
            match columnTasks.findIdx? (fun t => t.id == activeId),
                  columnTasks.findIdx? (fun t => t.id == overId) with
            | some oldIdx, some newIdx =>
              let reordered := assignDense (arrayMove columnTasks oldIdx newIdx)
              some ((tasks.filter (fun t => !(t.status == sourceStatus))) ++ reordered,
                    false, false)
            | _, _ => none
        else
          let updatedTask := { draggedTask with status := targetStatus }
          let tasksWithoutDragged := tasks.filter (fun t => !(t.id == activeId))
          let currentTarget :=
            sortByOrder (tasksWithoutDragged.filter (fun t => t.status == targetStatus))
          let insertionIndex :=
            if overIsColumn then currentTarget.length
            else
              match currentTarget.findIdx? (fun t => t.id == overId) with
              | some i => i
              | none => currentTarget.length
          let finalTarget := assignDense (currentTarget.insertIdx insertionIndex updatedTask)
          let finalSource :=
            assignDense
              (sortByOrder (tasksWithoutDragged.filter (fun t => t.status == sourceStatus)))
          let others :=
            tasksWithoutDragged.filter
              (fun t => !(t.status == sourceStatus) && !(t.status == targetStatus))
          some (others ++ finalSource ++ finalTarget, true, !finalSource.isEmpty)

/-- Success of the persistence calls a drag issues: the same-column branch
issues one `PATCH /reorder` (`ok1`); the cross-column branch issues
`PUT /:id` (`ok1`), the target-lane reorder (`ok2`, its update list always
contains the moved task) and, when the source column is non-empty, the
source-lane reorder (`ok3`).  The calls run sequentially inside one
`try`, so the operation commits iff every issued call succeeds. -/
def dragAllOk (cross srcNonempty ok1 ok2 ok3 : Bool) : Bool :=
  if cross then ok1 && ok2 && (!srcNonempty || ok3) else ok1

/-- Final client task state after `handleDragEnd`: early returns leave the
state alone; otherwise the optimistic state is installed and the `catch`
restores the captured `originalTasks` snapshot when an issued call fails. -/
def handleDragEnd (tasks : List Todo) (activeId overId : String)
    (ok1 ok2 ok3 : Bool) : List Todo :=
  match dragPlan tasks activeId overId with
  | none => tasks
  | some (optimistic, cross, srcne) =>
    if dragAllOk cross srcne ok1 ok2 ok3 then optimistic else tasks


/-! Concrete board states used by the counterexamples and witnesses. -/

/-- Shorthand for a stored task. -/
def mkTask (id status : String) (ord : Int) (pid : Option String)
    (arch : Bool := false) : Todo :=
  { id := id, title := id, status := status, order := ord, parentId := pid,
    tags := [], isArchived := arch }

/-- Top-level task `p` in lane `pending`. -/
def parentP : Todo := mkTask "p" "pending" 0 none

/-- Sub-item `s` of `p`; its stored `status` is `pending`. -/
def subS : Todo := mkTask "s" "pending" 0 (some "p")

/-- Top-level task `d1` in lane `done`. -/
def doneD : Todo := mkTask "d1" "done" 0 none

/-- Top-level tasks `a` and `b` in lane `pending`, orders 0 and 1. -/
def taskA : Todo := mkTask "a" "pending" 0 none

/-- See `taskA`. -/
def taskB : Todo := mkTask "b" "pending" 1 none

/-- Scenario-A tasks X, Y, Z in lane `pending`, orders 0, 1, 2. -/
def taskX : Todo := mkTask "x" "pending" 0 none

/-- See `taskX`. -/
def taskY : Todo := mkTask "y" "pending" 1 none

/-- See `taskX`. -/
def taskZ : Todo := mkTask "z" "pending" 2 none

/-- A task whose stored status is the legacy `"Todo"` literal, which is not
a member of `KANBAN_STATUSES`. -/
def taskBad : Todo := mkTask "bad" "Todo" 0 none

/-- A `pending` board with three non-archived top-level tasks and one
archived one. -/
def storeWithArchived : List Todo :=
  [mkTask "a1" "pending" 0 none, mkTask "a2" "pending" 1 none,
   mkTask "a3" "pending" 2 none, mkTask "za" "pending" 3 none true]

/-- Create request with no status field. -/
def inputNoStatus : CreateInput :=
  { title := "task", status := none, tags := [], parentId := none }

/-- Create request with an invalid lane. -/
def inputBogus : CreateInput :=
  { title := "a", status := some "bogus", tags := [], parentId := none }

/-! Basic helper lemmas about the sort and the status defaulting. -/

theorem insertByOrder_perm (t : Todo) (l : List Todo) :
    (insertByOrder t l).Perm (t :: l) := by
  induction l with
  | nil => simp [insertByOrder]
  | cons u us ih =>
    by_cases h : u.order < t.order
    · simpa [insertByOrder, h] using ((ih.cons u).trans (List.Perm.swap t u us))
    · simp [insertByOrder, h]

theorem sortByOrder_perm (l : List Todo) : (sortByOrder l).Perm l := by
  induction l with
  | nil => simp [sortByOrder]
  | cons t ts ih =>
    exact (insertByOrder_perm t (sortByOrder ts)).trans (ih.cons t)

theorem mem_sortByOrder {a : Todo} {l : List Todo} : a ∈ sortByOrder l ↔ a ∈ l :=
  (sortByOrder_perm l).mem_iff

theorem finalStatus_mem (status? : Option String) :
    finalStatus status? ∈ KANBAN_STATUSES := by
  cases status? with
  | none => simp [finalStatus, defaultStatus, KANBAN_STATUSES]
  | some s =>
    by_cases h : s ∈ KANBAN_STATUSES
    · simp [finalStatus, h]
    · simp only [finalStatus, if_neg h]
      simp [defaultStatus, KANBAN_STATUSES]
/-! Claim theorems. -/

/-- C3: the reorder computation (`arrayMove` followed by
`.map((task, index) => ({ ...task, order: index }))`) assigns to each task
the order value equal to its position in the desired sequence — the orders
are exactly `0..n-1`, a strict function of position, with ids preserved —
and, concretely, reordering `[X, Y, Z]` (orders 0, 1, 2) to the desired
sequence `[Z, X, Y]` yields `Z ↦ 0`, `X ↦ 1`, `Y ↦ 2`. -/
theorem c3_dense_reorder (seq : List Todo) :
    (assignDense seq).map (fun t => t.order)
        = (List.range seq.length).map Int.ofNat
    ∧ (assignDense seq).map (fun t => t.id) = seq.map (fun t => t.id)
    ∧ assignDense (arrayMove [taskX, taskY, taskZ] 2 0)
        = [{ taskZ with order := 0 }, { taskX with order := 1 },
           { taskY with order := 2 }] := by
  refine ⟨?_, ?_, by decide⟩
  · simp only [assignDense, List.map_map]
    show seq.enum.map (fun p => Int.ofNat p.1)
        = (List.range seq.length).map Int.ofNat
    conv_rhs => rw [← List.enum_map_fst seq]
    rw [List.map_map]
    rfl
  · simp only [assignDense, List.map_map]
    show seq.enum.map (fun p => p.2.id) = seq.map (fun t => t.id)
    conv_rhs => rw [← List.enum_map_snd seq]
    rw [List.map_map]
    rfl

/-- C2: for every drag operation (same-column reorder or cross-column move),
if any issued persistence call fails the client task state is restored to
exactly the pre-operation snapshot, and in every case the final state is
either the pre-operation snapshot or the fully-applied optimistic state of
the operation's plan. -/
theorem c2_drag_rollback (tasks : List Todo) (activeId overId : String)
    (ok1 ok2 ok3 : Bool) :
    (∀ optimistic cross srcne,
        dragPlan tasks activeId overId = some (optimistic, cross, srcne) →
        dragAllOk cross srcne ok1 ok2 ok3 = false →
        handleDragEnd tasks activeId overId ok1 ok2 ok3 = tasks)
    ∧ (handleDragEnd tasks activeId overId ok1 ok2 ok3 = tasks
       ∨ ∃ cross srcne,
           dragPlan tasks activeId overId
             = some (handleDragEnd tasks activeId overId ok1 ok2 ok3, cross, srcne)) := by
  cases hp : dragPlan tasks activeId overId with
  | none =>
    refine ⟨fun o c s hsome _ => ?_, Or.inl (by simp [handleDragEnd, hp])⟩
    exact absurd hsome (by simp)
  | some triple =>
    obtain ⟨opt, cross, srcne⟩ := triple
    constructor
    · intro o c s hsome hfail
      cases hsome
      simp [handleDragEnd, hp, hfail]
    · by_cases hok : dragAllOk cross srcne ok1 ok2 ok3 = true
      · exact Or.inr ⟨cross, srcne, by simp [handleDragEnd, hp, hok]⟩
      · exact Or.inl (by simp [handleDragEnd, hp, hok])

/-- Witness for C2: the same-column drag of `a` onto `b` whose reorder call
fails leaves the state at the pre-operation snapshot. -/
theorem c2_drag_rollback_witness :
    handleDragEnd [taskA, taskB] "a" "b" false true true = [taskA, taskB] :=
  (c2_drag_rollback [taskA, taskB] "a" "b" false true true).1
    [{ taskB with order := 0 }, { taskA with order := 1 }] false false
    (by decide) (by decide)

/-- C1 counterexample: the claim says a sub-item (non-null `parentId`) is
never modified by a batch reorder request, but the bulk-write filter is
`{ _id, status }` with no `parentId` condition, so the request
`{ status: "pending", updates: [{ _id: "s", order: 5 }] }` does modify the
sub-item `s`, whose current lane is `pending`. -/
theorem c1_counterexample :
    subS.parentId = some "p"
    ∧ (reorderRoute [parentP, subS] "pending" [("s", 5)]).1
        = [parentP, { subS with order := 5 }]
    ∧ { subS with order := 5 } ≠ subS := by decide

/-- C4 counterexample: the claim says sub-items are never assigned a lane,
but `POST /:parentId/subtasks` stores `status: finalStatus` on the created
sub-item — here the default lane `pending`, a member of the enumerated
lane set. -/
theorem c4_counterexample :
    ((createSubtask [parentP] "s1" "p"
        { title := "sub", status := none, tags := [], parentId := none }).2.toOption.map
          (fun d => (d.parentId, d.status))) = some (some "p", "pending")
    ∧ "pending" ∈ KANBAN_STATUSES := by decide

/-- C6 counterexample: the claim says the new item's order equals the count
of non-archived top-level siblings in the lane, but the handler's
`countDocuments({ parentId: null, status })` does not exclude archived
documents: with 3 non-archived and 1 archived `pending` tasks the new
order is 4, not 3. -/
theorem c6_counterexample :
    ((createTodo storeWithArchived "n1" inputNoStatus).2.toOption.map
        (fun d => (d.status, d.order))) = some ("pending", 4)
    ∧ (storeWithArchived.filter
          (fun t => t.parentId == none && t.status == "pending" && !t.isArchived)).length = 3
    ∧ (4 : Int) ≠ 3 := by decide

/-- C7 counterexample: the claim says an id not belonging to the declared
lane is rejected with a per-item error, but the request succeeds: the id
`d1` currently in lane `done` is silently skipped and the route answers
`ok` with matched/modified counts 0. -/
theorem c7_counterexample :
    doneD.status = "done"
    ∧ reorderRoute [doneD] "pending" [("d1", 0)] = ([doneD], .ok (0, 0)) := by decide

/-- C8 counterexample: the claim says create fails with `ValidationError`
when the supplied lane is invalid, but the handler silently falls back to
the default lane: creating with `status: "bogus"` succeeds and stores
`status: "pending"`. -/
theorem c8_counterexample :
    inputBogus.status = some "bogus"
    ∧ "bogus" ∉ KANBAN_STATUSES
    ∧ ((createTodo [] "n1" inputBogus).2.toOption.map (fun d => d.status))
        = some "pending"
    ∧ ((createTodo [] "n1" inputBogus).1).length = 1 := by decide
/-- Sub-item creation request used by the C4 witness. -/
def subInput : CreateInput :=
  { title := "sub", status := none, tags := [], parentId := none }

/-- The sub-item that `createSubtask [parentP] "s1" "p" subInput` stores. -/
def subDoc : Todo :=
  { id := "s1", title := "sub", status := "pending", order := 0,
    parentId := some "p", tags := [], isArchived := false }

/-- Create request whose title trims to the empty string. -/
def inputBlank : CreateInput :=
  { title := "   ", status := none, tags := [], parentId := none }

/-- C4 (amended): sub-items are assigned a lane exactly like top-level
items — every successfully created sub-item stores the parent reference
and a `status` equal to `finalStatus` of the request, which is always a
member of the enumerated lane set. -/
theorem c4_subtask_lane (store : List Todo) (newId pid : String)
    (input : CreateInput) (doc : Todo)
    (h : (createSubtask store newId pid input).2 = .ok doc) :
    doc.parentId = some pid ∧ doc.status = finalStatus input.status
      ∧ doc.status ∈ KANBAN_STATUSES := by
  by_cases hp : store.any (fun t => t.id == pid)
  · by_cases hv : strTrim input.title = "" ∨ newId = pid
    · simp [createSubtask, hp, hv] at h
    · simp [createSubtask, hp, hv] at h
      subst h
      exact ⟨rfl, rfl, finalStatus_mem _⟩
  · simp [createSubtask, hp] at h

/-- Witness for C4 (amended): the concrete sub-item created under parent
`p` carries lane `pending`. -/
theorem c4_subtask_lane_witness :
    subDoc.parentId = some "p" ∧ subDoc.status = finalStatus subInput.status
      ∧ subDoc.status ∈ KANBAN_STATUSES :=
  c4_subtask_lane [parentP] "s1" "p" subInput subDoc (by decide)

/-- C6 (amended): a create request with a non-empty (trimmed) title
succeeds and stores a top-level item whose lane is `finalStatus` of the
request (the requested lane when valid, else the board's first lane) and
whose order equals the count of all existing top-level items in that lane's
partition — archived items included, since the handler's count does not
filter on the archived flag. -/
theorem c6_create_order (store : List Todo) (newId : String) (input : CreateInput)
    (h : strTrim input.title ≠ "") :
    (createTodo store newId input).2.toOption.map (fun d => (d.status, d.parentId, d.order))
      = some (finalStatus input.status, none,
          ((store.filter (fun t =>
              t.parentId == none && t.status == finalStatus input.status)).length : Int)) := by
  simp [createTodo, h, Except.toOption]

/-- Witness for C6 (amended): creating on the board with three non-archived
and one archived `pending` tasks. -/
theorem c6_create_order_witness :
    (createTodo storeWithArchived "n2" inputNoStatus).2.toOption.map
        (fun d => (d.status, d.parentId, d.order))
      = some (finalStatus inputNoStatus.status, none,
          ((storeWithArchived.filter (fun t =>
              t.parentId == none && t.status == finalStatus inputNoStatus.status)).length : Int)) :=
  c6_create_order storeWithArchived "n2" inputNoStatus (by decide)

/-- C8 (amended): create fails with `ValidationError` — leaving the store
unchanged — exactly when the trimmed title is empty; an invalid supplied
lane does not fail: it is silently replaced by the board's first lane. -/
theorem c8_create_validation (store : List Todo) (newId : String) (input : CreateInput) :
    ((createTodo store newId input).2 = .error .validation ↔ strTrim input.title = "")
    ∧ (strTrim input.title = "" → (createTodo store newId input).1 = store)
    ∧ (∀ s, input.status = some s → s ∉ KANBAN_STATUSES → strTrim input.title ≠ "" →
        (createTodo store newId input).2.toOption.map (fun d => d.status)
          = some defaultStatus) := by
  refine ⟨?_, fun h => by simp [createTodo, h], fun s hs hns ht => ?_⟩
  · by_cases h : strTrim input.title = ""
    · simp [createTodo, h]
    · simp [createTodo, h]
  · simp [createTodo, ht, Except.toOption, hs, finalStatus, hns]

/-- Witness for C8 (amended): a blank title is rejected with the store
unchanged. -/
theorem c8_create_validation_witness :
    (createTodo [] "n3" inputBlank).1 = [] :=
  (c8_create_validation [] "n3" inputBlank).2.1 (by decide)

/-- C10: top-level create always stores `parentId = null` (any
client-supplied `parentId` in the body is overridden), and a sub-item is
created only under an existing parent: a missing parent yields 404 with
the store unchanged, and every successful sub-item creation implies the
parent was present. -/
theorem c10_parent_integrity (store : List Todo) (newId pid : String)
    (input : CreateInput) :
    (∀ doc, (createTodo store newId input).2 = .ok doc → doc.parentId = none)
    ∧ ((¬ ∃ t ∈ store, t.id = pid) →
        createSubtask store newId pid input = (store, .error .notFound))
    ∧ (∀ doc, (createSubtask store newId pid input).2 = .ok doc →
        (∃ t ∈ store, t.id = pid) ∧ doc.parentId = some pid) := by
  refine ⟨fun doc h => ?_, fun h => ?_, fun doc h => ?_⟩
  · by_cases ht : strTrim input.title = ""
    · simp [createTodo, ht] at h
    · simp [createTodo, ht] at h
      subst h
      rfl
  · have hfalse : store.any (fun t => t.id == pid) = false := by
      rw [← Bool.not_eq_true, List.any_eq_true]
      simpa using h
    simp [createSubtask, hfalse]
  · by_cases hp : store.any (fun t => t.id == pid)
    · refine ⟨by simpa [List.any_eq_true] using hp, ?_⟩
      by_cases hv : strTrim input.title = "" ∨ newId = pid
      · simp [createSubtask, hp, hv] at h
      · simp [createSubtask, hp, hv] at h
        subst h
        rfl
    · simp [createSubtask, hp] at h

/-- Witness for C10: creating a sub-item under the missing parent `p9`
fails with 404 and leaves the empty store unchanged. -/
theorem c10_parent_integrity_witness :
    createSubtask [] "s9" "p9" inputNoStatus = ([], .error .notFound) :=
  (c10_parent_integrity [] "s9" "p9" inputNoStatus).2.1 (by simp)
/-- C9: every non-archived task whose stored lane is not enumerated is
placed (with a logged warning) into the default lane's column, never
dropped; and each non-archived task appears in exactly one column — the
column of its effective status, which is always an enumerated lane. -/
theorem c9_projection_total (tasks : List Todo) (t : Todo)
    (hmem : t ∈ tasks) (harch : t.isArchived = false) :
    (t.status ∉ KANBAN_STATUSES →
        t ∈ projectColumn tasks defaultStatus ∧ t.id ∈ projectionWarnings tasks)
    ∧ effectiveStatus t ∈ KANBAN_STATUSES
    ∧ ∀ s, t ∈ projectColumn tasks s ↔ s = effectiveStatus t := by
  have hcol : ∀ s, t ∈ projectColumn tasks s ↔ s = effectiveStatus t := by
    intro s
    rw [projectColumn, mem_sortByOrder, List.mem_filter]
    constructor
    · rintro ⟨-, hb⟩
      simp [harch] at hb
      exact hb.symm
    · intro hs
      refine ⟨hmem, ?_⟩
      simp [harch, hs]
  have heff : effectiveStatus t ∈ KANBAN_STATUSES := by
    by_cases h : t.status ∈ KANBAN_STATUSES ∧ t.status ≠ "Todo"
    · simp only [effectiveStatus, if_pos h]
      exact h.1
    · simp only [effectiveStatus, if_neg h]
      decide
  refine ⟨fun hbad => ⟨?_, ?_⟩, heff, hcol⟩
  · rw [hcol]
    simp [effectiveStatus, hbad]
  · rw [projectionWarnings, List.mem_map]
    refine ⟨t, ?_, rfl⟩
    rw [List.mem_filter]
    refine ⟨hmem, ?_⟩
    simp [hbad]

/-- Witness for C9: the task with the legacy status `"Todo"` lands in the
default column and is warned about. -/
theorem c9_projection_total_witness :
    taskBad ∈ projectColumn [taskBad] defaultStatus
      ∧ taskBad.id ∈ projectionWarnings [taskBad] :=
  (c9_projection_total [taskBad] taskBad (by decide) rfl).1 (by decide)

theorem setOrderOne_no_match (L uid : String) (o : Int) (l : List Todo)
    (h : ∀ t ∈ l, ¬(t.id = uid ∧ t.status = L)) :
    setOrderOne L uid o l = (l, false, false) := by
  induction l with
  | nil => rfl
  | cons a as ih =>
    have ha := h a (by simp)
    simp [setOrderOne, ha, ih (fun t ht => h t (by simp [ht]))]

theorem batchSetOrder_no_match (L : String) (us : List (String × Int))
    (store : List Todo)
    (h : ∀ u ∈ us, ∀ t ∈ store, ¬(t.id = u.1 ∧ t.status = L)) :
    batchSetOrder L us store = (store, 0, 0) := by
  induction us with
  | nil => rfl
  | cons u us ih =>
    have h1 := setOrderOne_no_match L u.1 u.2 store (h u (by simp))
    simp [batchSetOrder, h1, ih (fun v hv s hs => h v (by simp [hv]) s hs)]

/-- C7 (amended): a lane outside the enumerated set, or an empty update
list, is rejected with a 400 before any write (the store is returned
unchanged); ids that do not currently belong to the declared lane are
silently skipped — the request still succeeds and the skip shows up only
in the matched/modified counts (here all-skipped gives `ok (0, 0)` with
the store unchanged), not as a per-item error. -/
theorem c7_reorder_validation (store : List Todo) (L : String)
    (updates : List (String × Int)) :
    (L ∉ KANBAN_STATUSES → reorderRoute store L updates = (store, .error .badRequest))
    ∧ (updates = [] → reorderRoute store L updates = (store, .error .badRequest))
    ∧ (L ∈ KANBAN_STATUSES → updates ≠ [] →
        (∀ u ∈ updates, ∀ t ∈ store, ¬(t.id = u.1 ∧ t.status = L)) →
        reorderRoute store L updates = (store, .ok (0, 0))) := by
  refine ⟨fun h => by simp [reorderRoute, h], fun h => ?_, fun hL hne h => ?_⟩
  · by_cases hL : L ∉ KANBAN_STATUSES
    · simp [reorderRoute, hL]
    · simp [reorderRoute, hL, h]
  · simp [reorderRoute, hL, hne, batchSetOrder_no_match L updates store h]

/-- Witness for C7 (amended): reordering lane `pending` with an id that
matches nothing succeeds with counts `(0, 0)` and an unchanged store. -/
theorem c7_reorder_validation_witness :
    reorderRoute [doneD] "pending" [("zzz", 1)] = ([doneD], .ok (0, 0)) :=
  (c7_reorder_validation [doneD] "pending" [("zzz", 1)]).2.2
    (by decide) (by decide) (by decide)
theorem setOrderOne_get? (L uid : String) (o : Int) :
    ∀ (l : List Todo) (i : Nat) (t : Todo), l.get? i = some t →
      ∃ t', (setOrderOne L uid o l).1.get? i = some t' ∧ t'.status = t.status
        ∧ (t.status ≠ L → t' = t) := by
  intro l
  induction l with
  | nil => intro i t h; simp at h
  | cons a as ih =>
    intro i t h
    by_cases hc : a.id = uid ∧ a.status = L
    · cases i with
      | zero =>
        rw [List.get?_cons_zero] at h
        cases h
        exact ⟨{ a with order := o }, by simp [setOrderOne, hc], rfl,
          fun hne => absurd hc.2 hne⟩
      | succ n =>
        rw [List.get?_cons_succ] at h
        refine ⟨t, ?_, rfl, fun _ => rfl⟩
        simp only [setOrderOne, if_pos hc, List.get?_cons_succ]
        exact h
    · cases i with
      | zero =>
        rw [List.get?_cons_zero] at h
        cases h
        exact ⟨a, by simp [setOrderOne, hc], rfl, fun _ => rfl⟩
      | succ n =>
        rw [List.get?_cons_succ] at h
        obtain ⟨t', h1, h2, h3⟩ := ih n t h
        refine ⟨t', ?_, h2, h3⟩
        simp only [setOrderOne, if_neg hc, List.get?_cons_succ]
        exact h1

theorem batchSetOrder_get? (L : String) :
    ∀ (us : List (String × Int)) (store : List Todo) (i : Nat) (t : Todo),
      store.get? i = some t →
      ∃ t', (batchSetOrder L us store).1.get? i = some t' ∧ t'.status = t.status
        ∧ (t.status ≠ L → t' = t) := by
  intro us
  induction us with
  | nil => intro store i t h; exact ⟨t, by simpa [batchSetOrder] using h, rfl, fun _ => rfl⟩
  | cons u us ih =>
    intro store i t h
    obtain ⟨t1, h1, hs1, he1⟩ := setOrderOne_get? L u.1 u.2 store i t h
    obtain ⟨t2, h2, hs2, he2⟩ := ih (setOrderOne L u.1 u.2 store).1 i t1 h1
    refine ⟨t2, by simpa [batchSetOrder] using h2, hs2.trans hs1, fun hne => ?_⟩
    have e1 := he1 hne
    have e2 := he2 (by rw [hs1]; exact hne)
    rw [e2, e1]

/-- C1 (amended): a valid batch reorder request modifies only items whose
current lane matches the declared lane — an item currently in a different
lane is never modified, wherever it sits in the store, and such skipped
entries are reflected only in the returned matched/modified counts (the
route still answers `ok`), not as an error.  The request does not restrict
`parentId`: the guarded scope is the lane alone. -/
theorem c1_scope_guard (store : List Todo) (L : String)
    (updates : List (String × Int))
    (hL : L ∈ KANBAN_STATUSES) (hne : updates ≠ []) :
    (∃ counts, (reorderRoute store L updates).2 = .ok counts)
    ∧ ∀ i t, store.get? i = some t → t.status ≠ L →
        (reorderRoute store L updates).1.get? i = some t := by
  constructor
  · exact ⟨(batchSetOrder L updates store).2, by simp [reorderRoute, hL, hne]⟩
  · intro i t h hst
    obtain ⟨t', h1, _, he⟩ := batchSetOrder_get? L updates store i t h
    rw [he hst] at h1
    simpa [reorderRoute, hL, hne] using h1

/-- Witness for C1 (amended): a `pending` reorder leaves the `done` task at
position 1 untouched. -/
theorem c1_scope_guard_witness :
    (reorderRoute [parentP, doneD] "pending" [("p", 7)]).1.get? 1 = some doneD :=
  (c1_scope_guard [parentP, doneD] "pending" [("p", 7)] (by decide) (by decide)).2
    1 doneD (by decide) (by decide)
theorem length_filter_split {α : Type} (p q : α → Bool) (l : List α)
    (hpq : ∀ a, q a = !p a) :
    (l.filter p).length + (l.filter q).length = l.length := by
  induction l with
  | nil => rfl
  | cons a l ih =>
    by_cases h : p a = true
    · rw [List.filter_cons_of_pos h, List.filter_cons_of_neg (by simp [hpq, h])]
      simp only [List.length_cons]
      omega
    · have hpa : p a = false := by rwa [Bool.not_eq_true] at h
      rw [List.filter_cons_of_neg h, List.filter_cons_of_pos (by simp [hpq, hpa])]
      simp only [List.length_cons]
      omega

theorem length_filter_or_disjoint {α : Type} (p q : α → Bool) (l : List α)
    (h : ∀ a ∈ l, ¬(p a = true ∧ q a = true)) :
    (l.filter (fun a => p a || q a)).length
      = (l.filter p).length + (l.filter q).length := by
  induction l with
  | nil => rfl
  | cons a l ih =>
    have ha := h a (by simp)
    have ih' := ih (fun b hb => h b (by simp [hb]))
    by_cases hp : p a = true
    · have hq : ¬ q a = true := fun hq => ha ⟨hp, hq⟩
      simp [List.filter_cons, hp, hq, ih']
      omega
    · by_cases hq : q a = true
      · simp [List.filter_cons, hp, hq, ih']
        omega
      · simp [List.filter_cons, hp, hq, ih']

theorem length_filter_eq_one_of_nodup (v : String) :
    ∀ (l : List Todo), (l.map (fun t => t.id)).Nodup → (∃ t ∈ l, t.id = v) →
      (l.filter (fun t => t.id == v)).length = 1 := by
  intro l
  induction l with
  | nil => intro _ hm; simp at hm
  | cons a as ih =>
    intro hn hm
    rw [List.map_cons, List.nodup_cons] at hn
    by_cases ha : a.id = v
    · have hempty : as.filter (fun t => t.id == v) = [] := by
        rw [List.filter_eq_nil_iff]
        intro t ht
        simp only [beq_iff_eq]
        intro htv
        exact hn.1 (List.mem_map.mpr ⟨t, ht, htv.trans ha.symm⟩)
      simp [List.filter_cons, ha, hempty]
    · obtain ⟨t, htm, htv⟩ := hm
      rcases List.mem_cons.mp htm with rfl | hmem
      · exact absurd htv ha
      · simp only [List.filter_cons, beq_iff_eq, ha, if_false]
        exact ih hn.2 ⟨t, hmem, htv⟩

theorem erasePIdFilter (v : String) :
    ∀ (l : List Todo), (l.map (fun t => t.id)).Nodup →
      l.eraseP (fun t => t.id == v) = l.filter (fun t => !(t.id == v)) := by
  intro l
  induction l with
  | nil => intro _; rfl
  | cons a as ih =>
    intro hn
    rw [List.map_cons, List.nodup_cons] at hn
    by_cases ha : a.id = v
    · rw [List.eraseP_cons_of_pos (by simp [ha]), List.filter_cons_of_neg (by simp [ha])]
      symm
      rw [List.filter_eq_self]
      intro t ht
      have : t.id ≠ v := fun hv => hn.1 (List.mem_map.mpr ⟨t, ht, hv.trans ha.symm⟩)
      simp [this]
    · rw [List.eraseP_cons_of_neg (by simp [ha]), List.filter_cons_of_pos (by simp [ha]),
        ih hn.2]

/-- C5: deleting an existing top-level item with k sub-items removes
exactly those k+1 documents — the survivors are precisely the documents
that neither carry the id nor reference it as parent, the store shrinks by
k+1, and no surviving document's `parentId` references the deleted id;
deleting a missing id answers 404 and removes nothing. -/
theorem c5_delete_cascade (store : List Todo) (id : String) :
    ((¬ ∃ t ∈ store, t.id = id) → deleteTodo store id = (store, .error .notFound))
    ∧ ((store.map (fun t => t.id)).Nodup → (∀ t ∈ store, t.parentId ≠ some t.id) →
        (∃ t ∈ store, t.id = id) →
        (deleteTodo store id).1
            = store.filter (fun t => !(t.id == id) && !(t.parentId == some id))
        ∧ store.length
            = (deleteTodo store id).1.length
              + (store.filter (fun t => t.parentId == some id)).length + 1
        ∧ ∀ t ∈ (deleteTodo store id).1, t.parentId ≠ some id) := by
  constructor
  · intro h
    have hfalse : store.any (fun t => t.id == id) = false := by
      rw [← Bool.not_eq_true, List.any_eq_true]
      simpa using h
    simp [deleteTodo, hfalse]
  · intro hn hself hex
    have hany : store.any (fun t => t.id == id) = true := by
      rw [List.any_eq_true]
      simpa using hex
    have hn' : ((store.filter (fun t => !(t.parentId == some id))).map
        (fun t => t.id)).Nodup :=
      List.Nodup.sublist ((List.filter_sublist store).map (fun t => t.id)) hn
    have hdel : deleteTodo store id
        = ((store.filter (fun t => !(t.parentId == some id))).eraseP
            (fun t => t.id == id), .ok ()) := by
      unfold deleteTodo
      rw [if_pos hany]
    have hres : (deleteTodo store id).1
        = store.filter (fun t => !(t.id == id) && !(t.parentId == some id)) := by
      rw [hdel]
      show (store.filter (fun t => !(t.parentId == some id))).eraseP
          (fun t => t.id == id) = _
      rw [erasePIdFilter id _ hn', List.filter_filter]
    have hdisj : ∀ a ∈ store,
        ¬((a.id == id) = true ∧ (a.parentId == some id) = true) := by
      intro a ha ⟨h1, h2⟩
      rw [beq_iff_eq] at h1 h2
      exact hself a ha (by rw [h2, h1])
    have hsplit := length_filter_split
      (fun t => !(t.id == id) && !(t.parentId == some id))
      (fun t => (t.id == id) || (t.parentId == some id)) store
      (fun a => by cases ha : a.id == id <;> cases hb : a.parentId == some id <;>
        simp [ha, hb])
    have hor : (store.filter (fun t => (t.id == id) || (t.parentId == some id))).length
        = (store.filter (fun t => t.id == id)).length
          + (store.filter (fun t => t.parentId == some id)).length := by
      simpa only [] using length_filter_or_disjoint (fun t => t.id == id)
        (fun t => t.parentId == some id) store hdisj
    have hone := length_filter_eq_one_of_nodup id store hn hex
    refine ⟨hres, ?_, ?_⟩
    · rw [hres]
      omega
    · rw [hres]
      intro t ht
      rw [List.mem_filter] at ht
      have hb := ht.2
      simp only [Bool.and_eq_true, Bool.not_eq_true'] at hb
      intro hcontra
      rw [hcontra] at hb
      simp at hb

/-- Witness for C5: deleting a missing id answers 404 and removes
nothing. -/
theorem c5_delete_cascade_witness :
    deleteTodo [] "q" = ([], .error .notFound) :=
  (c5_delete_cascade [] "q").1 (by simp)

end TodoSpec
